import Mathlib

/-!
Verification of the resilience layer of the repository `health-article-mcp`.

Shallow embedding of the resilience layer of the repository
(`src/rate_limiter.py`, `src/error_handlers.py`, `src/main.py`) and proofs
about it.  Timestamps (Python `time.time()` values) are modelled as
integers `ℤ`: the rate limiter and the cache compare and subtract
timestamps but never divide them, so any linearly ordered abelian group of
instants embeds them faithfully, and `ℤ` keeps every witness kernel
computable.  Redis data structures are modelled explicitly:

* a per-identity sorted set (`zadd` / `zremrangebyscore` / `zcard`) is a
  `List ℤ` of the timestamps stored as members.  In the source the member
  of each entry is `str(current_time)` and its score is `current_time`;
  since that string determines the value, a member is identified with its
  timestamp here, and `zadd` of an already-present timestamp is a no-op
  (it merely rewrites the same score), exactly as in Redis.
* the string keyspace (`set ... ex=ttl` / `get` / `setex`) is an
  association list from key to `(value, expiry time)`, newest binding
  first, with `get` honouring the expiry.

External collaborators (the Redis client itself, `json.dumps`, the OpenAI
and HTTP clients) are modelled at their boundary, as the spec directs: the
serializer is an explicit function parameter, and stage functions are
explicit outcome parameters.

The file is organised as definitions first (the embedding), then the
theorems.
-/

namespace HealthArticle

/-!
Definitions: rate limiter (`src/rate_limiter.py`, class `RateLimiter`).
-/

/-- Configuration of `RateLimiter.__init__`: `max_requests` requests per
`time_window` seconds. -/
structure RLConfig where
  max_requests : Nat
  time_window : ℤ
deriving Repr

/-- One identity's sorted set `rate_limit:{client_id}`: the list of stored
member timestamps. -/
abbrev ZSet := List ℤ

/-- Redis `ZREMRANGEBYSCORE key lo hi`: remove members whose score lies in
`[lo, hi]`. -/
def zremrangebyscore (lo hi : ℤ) (s : ZSet) : ZSet :=
  s.filter (fun t => !(decide (lo ≤ t) && decide (t ≤ hi)))

/-- Redis `ZADD key {member: score}` with member `str(t)`, score `t`:
adding an already-present member only resets its (identical) score. -/
def zadd (t : ℤ) (s : ZSet) : ZSet :=
  if t ∈ s then s else t :: s

/-- Source `RateLimiter._cleanup_old_requests`: remove entries with score
in `[0, now - time_window]`. -/
def cleanup_old_requests (cfg : RLConfig) (now : ℤ) (s : ZSet) : ZSet :=
  zremrangebyscore 0 (now - cfg.time_window) s

/-- Outcome of an admission check as the source could produce it:
`allowed` models `return True`, `rateLimitError` models raising
`RateLimitError` (a `QuotaExceeded`), and `typeError` models the
`TypeError` raised when the count comparison is reached.  On the written
code `typeError` is the outcome of every call — see `check_rate_limit`. -/
inductive Decision where
  | allowed
  | rateLimitError
  | typeError
deriving DecidableEq, Repr

/-- Source `RateLimiter.check_rate_limit`, for one identity.  The body
runs `_cleanup_old_requests` (immediately, through the plain client),
buffers `zadd`, `zcard` and `expire` on a pipeline and awaits
`pipe.execute()`, so the entry for `now` is inserted and the expiry
refreshed.  But `request_count` is bound to `await pipe.zcard(key)`: in
`redis.asyncio` a buffered pipeline command returns the `Pipeline` object
itself, and awaiting it yields the pipeline again, never an integer — the
integer results sit in the discarded return value of `pipe.execute()`.
The comparison `request_count > self.max_requests` between the `Pipeline`
object and an `int` therefore raises `TypeError` on every call: the
function never returns `True` and never raises `RateLimitError`, while
the key has already been mutated.  (The `expire` call only refreshes the
key's TTL, which is subsumed by the cleanup: any entry the TTL could drop
is at least `time_window` old and is removed by `_cleanup_old_requests`
on the next check.) -/
def check_rate_limit (cfg : RLConfig) (now : ℤ) (s : ZSet) : Decision × ZSet :=
  let s1 := cleanup_old_requests cfg now s
  let s2 := zadd now s1
  (.typeError, s2)

/-- Number of stored entries with timestamp at least `now - time_window`
(the in-window entries the C3 invariant counts). -/
def inWindowCount (cfg : RLConfig) (now : ℤ) (s : ZSet) : Nat :=
  (s.filter (fun t => decide (now - cfg.time_window ≤ t))).length

/-!
Definitions: result cache (`src/rate_limiter.py`, class `Cache`).
-/

/-- The Redis string keyspace: `(key, value, expiry instant)` bindings,
newest first.  `SET k v EX ttl` prepends a binding; `GET` reads the
newest binding for the key and returns nothing once it has expired (an
expired newest binding means Redis has dropped the key: older shadowed
bindings were destroyed by the overwrite). -/
abbrev KVStore := List (String × String × ℤ)

/-- Redis `SET key value EX ttl` (given as the absolute expiry instant). -/
def redisSetEx (k v : String) (expireAt : ℤ) (st : KVStore) : KVStore :=
  (k, v, expireAt) :: st

/-- Redis `GET key` at instant `now`. -/
def redisGet (k : String) (now : ℤ) : KVStore → Option String
  | [] => none
  | (k2, v, expireAt) :: rest =>
    if k2 = k then (if now < expireAt then some v else none)
    else redisGet k now rest

namespace Cache

/-- Configuration of `Cache.__init__`: `default_ttl` (source default 3600)
and the key namespace (the source attribute holding the string `"cache:"`
prepended by `get_cache_key`). -/
structure Config where
  default_ttl : Nat
  redisNamespace : String
deriving Repr

/-- Source `Cache.get_cache_key`: prepend the namespace string. -/
def get_cache_key (cfg : Config) (key : String) : String :=
  cfg.redisNamespace ++ key

/-- The TTL actually applied by `Cache.set`: the source passes
`ex=ttl or self.default_ttl`, and Python `or` falls back to the default
both when `ttl` is `None` and when it is `0`. -/
def effectiveTtl (cfg : Config) (ttl : Option Nat) : Nat :=
  match ttl with
  | none => cfg.default_ttl
  | some n => if n = 0 then cfg.default_ttl else n

/-- Source `Cache.set`: store `json.dumps(value)` under the prefixed key
with expiry `ttl or default_ttl`.  The serializer `dumps` is the external
`json.dumps`, passed as an explicit function at the boundary. -/
def set {V : Type} (dumps : V → String) (cfg : Config) (key : String)
    (value : V) (ttl : Option Nat) (now : ℤ) (st : KVStore) : KVStore :=
  redisSetEx (get_cache_key cfg key) (dumps value)
    (now + (effectiveTtl cfg ttl : ℤ)) st

/-- Source `Cache.get`: read the raw stored string (the source returns the
bytes from Redis without deserializing). -/
def get (cfg : Config) (key : String) (now : ℤ) (st : KVStore) : Option String :=
  redisGet (get_cache_key cfg key) now st

end Cache

/-!
Definitions: cache key generation (`Cache.generate_key` and the key built
inside the `cached` decorator).
-/

/-- The order `sorted(kwargs.items())` sorts by: Python compares the
`(key, value)` tuples lexicographically. -/
def pairLe (a b : String × String) : Bool :=
  decide (a.1 < b.1) || (decide (a.1 = b.1) && decide (a.2 ≤ b.2))

/-- Model of `sorted(kwargs.items())`. -/
def sortedKwargs (kwargs : List (String × String)) : List (String × String) :=
  kwargs.mergeSort pairLe

/-- Source `Cache.generate_key`: `key_parts = [func_name]`, extended with
`str(arg)` for each positional argument (given here already stringified)
and `f"{k}:{v}"` for each keyword pair in sorted order, joined with `"|"`.
The source then returns `hashlib.md5(key_string.encode()).hexdigest()`;
the digest is a deterministic pure function of this canonical string, so
every equality between fingerprints follows from equality between these
strings, which is what the theorems below establish. -/
def generate_key (func_name : String) (args : List String)
    (kwargs : List (String × String)) : String :=
  String.intercalate "|"
    (func_name :: (args ++ (sortedKwargs kwargs).map (fun p => p.1 ++ ":" ++ p.2)))

/-- Python `repr` of a plain string (no escapes needed for the inputs
considered here): surround with single quotes, `chr(39)`. -/
def pyReprStr (s : String) : String :=
  String.singleton (Char.ofNat 39) ++ s ++ String.singleton (Char.ofNat 39)

/-- Python `str` of a tuple of strings. -/
def pyStrTuple (args : List String) : String :=
  match args with
  | [] => "()"
  | [a] => "(" ++ pyReprStr a ++ ",)"
  | _ => "(" ++ String.intercalate ", " (args.map pyReprStr) ++ ")"

/-- Python `str` of a `dict` of strings: insertion order is preserved. -/
def pyStrDict (kwargs : List (String × String)) : String :=
  "\x7b" ++
    String.intercalate ", "
      (kwargs.map (fun p => pyReprStr p.1 ++ ": " ++ pyReprStr p.2)) ++
  "\x7d"

/-- The cache key built inside the `cached` decorator:
`f"cache:{func.__name__}:{str(args)}:{str(kwargs)}"` — note `str(kwargs)`
renders the keyword dictionary in insertion order, with no sorting. -/
def cached_cache_key (func_name : String) (args : List String)
    (kwargs : List (String × String)) : String :=
  "cache:" ++ func_name ++ ":" ++ pyStrTuple args ++ ":" ++ pyStrDict kwargs

/-!
Definitions: retry with backoff (`src/error_handlers.py`,
`retry_with_backoff`).
-/

/-- How a sleep is performed.  The source's wrapper is an `async def` yet
calls `time.sleep(delay)`, which blocks the scheduling thread for the
whole delay; `await asyncio.sleep(delay)` would instead suspend only the
current task. -/
inductive SleepKind where
  | blocking
  | taskSuspending
deriving DecidableEq, Repr

/-- Parameters of `retry_with_backoff` (delays are seconds; modelled as
rationals, exact for the float values the source defaults to). -/
structure RetryConfig where
  max_retries : Nat
  initial_delay : ℚ
  max_delay : ℚ
  backoff_factor : ℚ

/-- Outcome of one invocation of the wrapped stage function: a value, or
a raised exception. -/
inductive Outcome (E V : Type) where
  | ok : V → Outcome E V
  | exn : E → Outcome E V

/-- What a run of the wrapper did: the surfaced result (returned value or
re-raised exception), how many times the stage function was invoked, and
the sleeps performed (duration and kind), in order. -/
structure RetryResult (E V : Type) where
  result : Except E V
  invocations : Nat
  sleeps : List (ℚ × SleepKind)

/-- The loop body of `retry_with_backoff.wrapper`, from iteration
`retry = attempt` with `remaining = max_retries - attempt` retries left
and the current `delay`.  Each iteration awaits `func`; a value returns at
once; an exception matching `retryable_exceptions` re-raises when no
retries remain and otherwise does `time.sleep(delay)` (a blocking sleep),
updates `delay = min(delay * backoff_factor, max_delay)` and loops; any
other exception propagates immediately (uncaught by the `except`
clause). -/
def retryGo {E V : Type} (f : Nat → Outcome E V) (retryable : E → Bool)
    (bf maxD : ℚ) : Nat → Nat → ℚ → RetryResult E V
  | attempt, remaining, delay =>
    match f attempt with
    | .ok v => ⟨.ok v, 1, []⟩
    | .exn e =>
      if retryable e then
        match remaining with
        | 0 => ⟨.error e, 1, []⟩
        | r + 1 =>
          let rest :=
            retryGo f retryable bf maxD (attempt + 1) r (min (delay * bf) maxD)
          ⟨rest.result, rest.invocations + 1, (delay, .blocking) :: rest.sleeps⟩
      else ⟨.error e, 1, []⟩

/-- Source `retry_with_backoff(max_retries, initial_delay, max_delay,
backoff_factor)` applied to a stage function.  The stage function is
modelled as the sequence of outcomes of its successive invocations, and
the error classifier `retryable` as membership of the raised exception in
`retryable_exceptions`. -/
def retry_with_backoff {E V : Type} (cfg : RetryConfig) (retryable : E → Bool)
    (f : Nat → Outcome E V) : RetryResult E V :=
  retryGo f retryable cfg.backoff_factor cfg.max_delay 0 cfg.max_retries
    cfg.initial_delay

/-!
Definitions: decorators and the pipeline endpoint (`cached` /
`rate_limit` in `src/rate_limiter.py`; `process_workflow` and
`ArticleService` in `src/main.py`).
-/

/-- Observable operations performed while serving a call, in order. -/
inductive Ev where
  | rateCheck
  | cacheLookup
  | invoke (stage : String)
  | cacheWrite
deriving DecidableEq, Repr

/-- Is this event an invocation of the named stage function? -/
def isInvoke (name : String) : Ev → Bool
  | .invoke s => s == name
  | _ => false

/-- How many times the named stage function was invoked in a trace. -/
def countInvokes (name : String) (evs : List Ev) : Nat :=
  (evs.filter (isInvoke name)).length

/-- The `cached` decorator's wrapper, on the path where a request object
and the app-state Redis client are present (otherwise the source calls
the function with no caching at all): read `cache:{func.__name__}:…` from
Redis; a non-empty cached value is returned as is (Python `if
cached_result:` treats empty bytes as a miss); on a miss the wrapped
function is invoked, its result stored with `setex(cache_key, ttl,
str(result))`, and the fresh result returned.  `fresh` is the stage
function's (stringified) result for this call. -/
def cachedWrapper (funcName key : String) (ttl : Nat) (fresh : String)
    (now : ℤ) (st : KVStore) : String × KVStore × List Ev :=
  match redisGet key now st with
  | some v =>
    if v = "" then
      (fresh, redisSetEx key fresh (now + (ttl : ℤ)) st,
        [.cacheLookup, .invoke funcName, .cacheWrite])
    else (v, st, [.cacheLookup])
  | none =>
    (fresh, redisSetEx key fresh (now + (ttl : ℤ)) st,
      [.cacheLookup, .invoke funcName, .cacheWrite])

/-- The `rate_limit` decorator's wrapper, on the path where the request
and the app-state rate limiter are present: check the rate limit for the
client identity; only when the check returns is the wrapped function
invoked, and anything the check raises propagates before the invocation.
On the written `check_rate_limit` the check always raises `TypeError`, so
this wrapper never invokes the wrapped function. -/
def rateLimitWrapper (cfg : RLConfig) (funcName : String) (now : ℤ)
    (s : ZSet) : Decision × ZSet × List Ev :=
  match check_rate_limit cfg now s with
  | (.allowed, s2) => (.allowed, s2, [.rateCheck, .invoke funcName])
  | (d, s2) => (d, s2, [.rateCheck])

/-- The inbound request model `ArticleRequest`. -/
structure ArticleRequest where
  url : Option String
  text : Option String

/-- Python truthiness of an optional string field: `None` and `""` are
falsy. -/
def truthy : Option String → Bool
  | none => false
  | some s => !s.isEmpty

/-- Source `ArticleService.process_article_text`: `asyncio.gather` the
three analysis stages (all three tasks are started, so all three are
invoked); on success return the `{summary, terminology,
quality_assessment}` mapping; any exception is caught and re-raised as
`ArticleAnalysisError("Error processing article text: …")`, so no stage's
result survives a failure.  Each stage is modelled by its outcome. -/
def process_article_text (s t q : Except String String) :
    Except String (String × String × String) × List Ev :=
  let evs := [Ev.invoke "_generate_summary", Ev.invoke "_extract_terminology",
    Ev.invoke "_assess_quality"]
  match s, t, q with
  | .ok a, .ok b, .ok c => (.ok (a, b, c), evs)
  | .error e, _, _ => (.error ("Error processing article text: " ++ e), evs)
  | _, .error e, _ => (.error ("Error processing article text: " ++ e), evs)
  | _, _, .error e => (.error ("Error processing article text: " ++ e), evs)

/-- The `/workflow/process` endpoint `process_workflow`: fetch the content
when a (truthy) URL was given, reject empty content with HTTP 400, run
the analysis, and map `ArticleFetchError` to HTTP 404 and
`ArticleAnalysisError` to HTTP 500.  Errors are `(status, detail)` pairs.
Note that the endpoint calls `app.state.article_service` directly: neither
the `rate_limit` nor the `cached` decorator is applied on this path (nor
anywhere else in the repository), so its trace contains only stage
invocations. -/
def process_workflow (fetch : String → Except String String)
    (s t q : Except String String) (req : ArticleRequest) :
    Except (Nat × String) (String × String × String) × List Ev :=
  if truthy req.url then
    match fetch (req.url.getD "") with
    | .error e => (.error (404, e), [Ev.invoke "fetch_article"])
    | .ok content =>
      if content = "" then
        (.error (400, "Empty article content"), [Ev.invoke "fetch_article"])
      else
        match process_article_text s t q with
        | (.ok r, evs) => (.ok r, Ev.invoke "fetch_article" :: evs)
        | (.error e, evs) => (.error (500, e), Ev.invoke "fetch_article" :: evs)
  else
    if req.text.getD "" = "" then
      (.error (400, "Empty article content"), [])
    else
      match process_article_text s t q with
      | (.ok r, evs) => (.ok r, evs)
      | (.error e, evs) => (.error (500, e), evs)

/-- Source `ArticleRequest.check_url_or_text` (pydantic `model_validator`,
run while parsing the inbound request, before the endpoint body executes):
reject when neither `url` nor `text` is (truthily) provided, when both
are, or when `text` exceeds `max_content_length`. -/
def check_url_or_text (maxLen : Nat) (url text : Option String) :
    Except String (Option String × Option String) :=
  if !truthy url && !truthy text then
    .error "Either url or text must be provided"
  else if truthy url && truthy text then
    .error "Only one of url or text should be provided"
  else if truthy text && decide ((text.getD "").length > maxLen) then
    .error "Text content exceeds maximum length"
  else
    .ok (url, text)

end HealthArticle

namespace HealthArticle

/-!
Theorems.  Helper lemmas come first, then, per claim: the claim's theorem,
its witness when the theorem has hypotheses, and its counterexample when
the claim as stated fails on the code.
-/

/-- Claim C1 (the code contradicts the claim): on the written
`check_rate_limit`, every admission check — for every configuration,
instant and stored window — ends in `TypeError`: `request_count` is the
awaited buffered pipeline command, the `Pipeline` object rather than an
integer, so the comparison with `max_requests` raises before any decision
is reached.  No check is ever allowed and none ever raises
`RateLimitError` (`QuotaExceeded`), so the claimed behaviour — exactly
`max_requests` accepted calls, then a `QuotaExceeded` rejection, then
recovery once the window has elapsed — cannot occur; it is the spec's
intended sliding-window semantics, which the code does not implement. -/
theorem rate_limit_typeerror_c1 (cfg : RLConfig) (now : ℤ) (s : ZSet) :
    (check_rate_limit cfg now s).1 = .typeError ∧
    (check_rate_limit cfg now s).1 ≠ .allowed ∧
    (check_rate_limit cfg now s).1 ≠ .rateLimitError := by
  refine ⟨rfl, ?_, ?_⟩
  · intro h
    simp [check_rate_limit] at h
  · intro h
    simp [check_rate_limit] at h

/-- Claim C3 (the code contradicts the claim): with `max_requests = 1`,
`time_window = 60`, two checks for one identity at instants 0 and 1.
Neither check finalizes an admission decision — both raise `TypeError`
(the `Pipeline`-object count comparison) — yet each check's pipeline has
already executed and inserted its timestamp unconditionally, so after the
second check the identity's key holds 2 in-window entries, above the
configured quota of 1.  The claimed invariant — at most `max_requests`
in-window entries once an admission decision is finalized, preserved by
rejected calls too — is not maintained by the code: entries accumulate
without bound while every check crashes. -/
theorem rate_limit_window_bound_c3_bug :
    (check_rate_limit ⟨1, 60⟩ 0 []).1 = .typeError ∧
    (check_rate_limit ⟨1, 60⟩ 1 ((check_rate_limit ⟨1, 60⟩ 0 []).2)).1 =
        .typeError ∧
    ¬ (inWindowCount ⟨1, 60⟩ 1
        ((check_rate_limit ⟨1, 60⟩ 1 ((check_rate_limit ⟨1, 60⟩ 0 []).2)).2) ≤
          (1 : Nat)) := by
  refine ⟨rfl, rfl, by decide⟩

/-- Claim C7: `Cache.set(key, value, ttl)` followed immediately by
`Cache.get(key)` returns the present value `json.dumps(value)` — exactly
the JSON serialization of `value`, so it deserializes back to `value`
whenever the external `json` round-trip holds (which is a property of the
`json` library for serializable values, outside this repository) — and at
any instant from `now + ttl` on, `Cache.get(key)` returns absent
(`None`). -/
theorem cache_set_get_c7 {V : Type} (dumps : V → String) (cfg : Cache.Config)
    (key : String) (v : V) (ttl : Option Nat) (now later : ℤ) (st : KVStore)
    (httl : 0 < Cache.effectiveTtl cfg ttl)
    (hlater : now + (Cache.effectiveTtl cfg ttl : ℤ) ≤ later) :
    Cache.get cfg key now (Cache.set dumps cfg key v ttl now st) =
        some (dumps v) ∧
    Cache.get cfg key later (Cache.set dumps cfg key v ttl now st) = none := by
  constructor
  · unfold Cache.get Cache.set redisSetEx redisGet
    rw [if_pos rfl, if_pos (by omega)]
  · unfold Cache.get Cache.set redisSetEx redisGet
    rw [if_pos rfl, if_neg (by omega)]

/-- Witness for C7: caching the serialization of the number 5 for 10
seconds at instant 0; reading back at 0 hits, reading at 10 misses. -/
theorem cache_set_get_c7_w :
    0 < Cache.effectiveTtl ⟨3600, "cache:"⟩ (some 10) ∧
    Cache.get ⟨3600, "cache:"⟩ "k" 0
        (Cache.set toString ⟨3600, "cache:"⟩ "k" (5 : Nat) (some 10) 0 []) =
      some "5" ∧
    Cache.get ⟨3600, "cache:"⟩ "k" 10
        (Cache.set toString ⟨3600, "cache:"⟩ "k" (5 : Nat) (some 10) 0 []) =
      none := by
  refine ⟨by decide, ?_, ?_⟩
  · exact (cache_set_get_c7 toString ⟨3600, "cache:"⟩ "k" (5 : Nat) (some 10)
      0 10 [] (by decide) (by decide)).1
  · exact (cache_set_get_c7 toString ⟨3600, "cache:"⟩ "k" (5 : Nat) (some 10)
      0 10 [] (by decide) (by decide)).2

theorem pairLe_trans (a b c : String × String)
    (hab : pairLe a b = true) (hbc : pairLe b c = true) : pairLe a c = true := by
  simp only [pairLe, Bool.or_eq_true, Bool.and_eq_true, decide_eq_true_eq] at *
  rcases hab with h1 | ⟨h1, h2⟩ <;> rcases hbc with h3 | ⟨h3, h4⟩
  · exact Or.inl (lt_trans h1 h3)
  · exact Or.inl (h3 ▸ h1)
  · exact Or.inl (h1 ▸ h3)
  · exact Or.inr ⟨h1.trans h3, le_trans h2 h4⟩

theorem pairLe_total (a b : String × String) :
    pairLe a b = true ∨ pairLe b a = true := by
  simp only [pairLe, Bool.or_eq_true, Bool.and_eq_true, decide_eq_true_eq]
  rcases lt_trichotomy a.1 b.1 with h | h | h
  · exact Or.inl (Or.inl h)
  · rcases le_total a.2 b.2 with h2 | h2
    · exact Or.inl (Or.inr ⟨h, h2⟩)
    · exact Or.inr (Or.inr ⟨h.symm, h2⟩)
  · exact Or.inr (Or.inl h)

theorem pairLe_antisymm (a b : String × String)
    (hab : pairLe a b = true) (hba : pairLe b a = true) : a = b := by
  simp only [pairLe, Bool.or_eq_true, Bool.and_eq_true, decide_eq_true_eq] at *
  rcases hab with h1 | ⟨h1, h2⟩ <;> rcases hba with h3 | ⟨h3, h4⟩
  · exact absurd (lt_trans h1 h3) (lt_irrefl a.1)
  · exact absurd (h3 ▸ h1) (lt_irrefl b.1)
  · exact absurd (h1 ▸ h3) (lt_irrefl b.1)
  · exact Prod.ext h1 (le_antisymm h2 h4)

/-- Sorting is canonical: two keyword lists that are equal as mappings
(same pairs, any order) sort to the same list. -/
theorem sortedKwargs_perm_eq (k1 k2 : List (String × String))
    (h : k1.Perm k2) : sortedKwargs k1 = sortedKwargs k2 := by
  have hperm : (sortedKwargs k1).Perm (sortedKwargs k2) :=
    ((k1.mergeSort_perm pairLe).trans h).trans (k2.mergeSort_perm pairLe).symm
  have hs1 : (sortedKwargs k1).Pairwise (fun a b => pairLe a b = true) := by
    have := List.sorted_mergeSort
      (fun a b c hab hbc => pairLe_trans a b c hab hbc)
      (fun a b => by
        rcases pairLe_total a b with h | h <;> simp [h]) k1
    simpa [sortedKwargs] using this
  have hs2 : (sortedKwargs k2).Pairwise (fun a b => pairLe a b = true) := by
    have := List.sorted_mergeSort
      (fun a b c hab hbc => pairLe_trans a b c hab hbc)
      (fun a b => by
        rcases pairLe_total a b with h | h <;> simp [h]) k2
    simpa [sortedKwargs] using this
  haveI : IsAntisymm (String × String) (fun a b => pairLe a b = true) :=
    ⟨pairLe_antisymm⟩
  exact List.eq_of_perm_of_sorted hperm hs1 hs2

/-- Claim C6, counterexample: the fingerprint actually used by the
`cached` decorator is built from `str(kwargs)`, which renders the
dictionary in insertion order: the two keyword mappings `{a: 1, b: 2}` and
`{b: 2, a: 1}` are equal as mappings (permutations of the same pairs) yet
produce different cache keys, refuting "two logically identical calls
always produce the same cache key" for that fingerprint. -/
theorem fingerprint_det_c6_cex :
    ([("a", "1"), ("b", "2")] : List (String × String)).Perm
        [("b", "2"), ("a", "1")] ∧
    cached_cache_key "summarize" [] [("a", "1"), ("b", "2")] ≠
      cached_cache_key "summarize" [] [("b", "2"), ("a", "1")] := by
  constructor
  · decide
  · decide

/-- Claim C6, amended: `Cache.generate_key` is canonical as the claim
states: for any stage name and positional arguments, two keyword-argument
mappings that are equal as mappings (permutations of the same key-value
pairs) yield the same fingerprint, because the serialization sorts the
pairs.  The key built inside the `cached` decorator, however, uses the
insertion-ordered `str(kwargs)` and is *not* canonical (see the
counterexample). -/
theorem fingerprint_det_c6 (func_name : String) (args : List String)
    (k1 k2 : List (String × String)) (h : k1.Perm k2) :
    generate_key func_name args k1 = generate_key func_name args k2 := by
  unfold generate_key
  rw [sortedKwargs_perm_eq k1 k2 h]

/-- Witness for the amended C6: the two orderings of `{a: 1, b: 2}` give
the same `generate_key` fingerprint. -/
theorem fingerprint_det_c6_w :
    ([("a", "1"), ("b", "2")] : List (String × String)).Perm
        [("b", "2"), ("a", "1")] ∧
    generate_key "summarize" ["text"] [("a", "1"), ("b", "2")] =
      generate_key "summarize" ["text"] [("b", "2"), ("a", "1")] :=
  ⟨by decide,
    fingerprint_det_c6 "summarize" ["text"] _ _ (by decide)⟩

theorem retryGo_allfail {E V : Type} (f : Nat → Outcome E V)
    (retryable : E → Bool) (bf maxD : ℚ)
    (herr : ∀ k, ∃ e, f k = .exn e ∧ retryable e = true) :
    ∀ (remaining attempt : Nat) (delay : ℚ),
      (retryGo f retryable bf maxD attempt remaining delay).invocations =
          remaining + 1 ∧
      ∀ e, f (attempt + remaining) = .exn e →
        (retryGo f retryable bf maxD attempt remaining delay).result =
          .error e := by
  intro remaining
  induction remaining with
  | zero =>
    intro attempt delay
    obtain ⟨e, he, hr⟩ := herr attempt
    constructor
    · rw [retryGo]
      simp [he, hr]
    · intro e2 he2
      rw [Nat.add_zero] at he2
      rw [he] at he2
      cases he2
      rw [retryGo]
      simp [he, hr]
  | succ r ih =>
    intro attempt delay
    obtain ⟨e, he, hr⟩ := herr attempt
    have hrec := ih (attempt + 1) (min (delay * bf) maxD)
    constructor
    · rw [retryGo]
      simp only [he, hr, if_pos]
      simp [hrec.1]
    · intro e2 he2
      rw [retryGo]
      simp only [he, hr, if_pos]
      have : attempt + 1 + r = attempt + (r + 1) := by omega
      exact hrec.2 e2 (by rw [this]; exact he2)

/-- Claim C2: a stage function that raises a retryable error on every
invocation is invoked exactly `max_retries + 1` times, and the wrapper
then fails by re-raising the error of the last attempt (attempt number
`max_retries`) to the caller. -/
theorem retry_bound_c2 {E V : Type} (cfg : RetryConfig) (retryable : E → Bool)
    (f : Nat → Outcome E V)
    (herr : ∀ k, ∃ e, f k = .exn e ∧ retryable e = true) :
    (retry_with_backoff cfg retryable f).invocations = cfg.max_retries + 1 ∧
    ∀ e, f cfg.max_retries = .exn e →
      (retry_with_backoff cfg retryable f).result = .error e := by
  have h := retryGo_allfail f retryable cfg.backoff_factor cfg.max_delay herr
    cfg.max_retries 0 cfg.initial_delay
  refine ⟨h.1, fun e he => h.2 e ?_⟩
  rw [Nat.zero_add]
  exact he

/-- Witness for C2: `max_retries = 2`, a stage function always raising a
retryable error tagged with its attempt number: 3 invocations, and the
error of attempt 2 is re-raised. -/
theorem retry_bound_c2_w :
    (∀ k : Nat, ∃ e : Nat,
        (fun n => (Outcome.exn n : Outcome Nat Unit)) k = .exn e ∧
        (fun _ : Nat => true) e = true) ∧
    (retry_with_backoff ⟨2, 1, 10, 2⟩ (fun _ => true)
        (fun n => (Outcome.exn n : Outcome Nat Unit))).invocations = 3 ∧
    (retry_with_backoff ⟨2, 1, 10, 2⟩ (fun _ => true)
        (fun n => (Outcome.exn n : Outcome Nat Unit))).result = .error 2 := by
  have hyp : ∀ k : Nat, ∃ e : Nat,
      (fun n => (Outcome.exn n : Outcome Nat Unit)) k = .exn e ∧
      (fun _ : Nat => true) e = true :=
    fun k => ⟨k, rfl, rfl⟩
  have h := retry_bound_c2 ⟨2, 1, 10, 2⟩ (fun _ => true)
    (fun n => (Outcome.exn n : Outcome Nat Unit)) hyp
  exact ⟨hyp, h.1, h.2 2 rfl⟩

/-- Claim C5: a stage function whose first invocation raises an error not
classified as retryable is invoked exactly once, no backoff sleep is
performed, and that error propagates immediately, for every
configuration (in particular every `max_retries`). -/
theorem nonretryable_once_c5 {E V : Type} (cfg : RetryConfig)
    (retryable : E → Bool) (f : Nat → Outcome E V) (e : E)
    (h0 : f 0 = .exn e) (hnr : retryable e = false) :
    (retry_with_backoff cfg retryable f).result = .error e ∧
    (retry_with_backoff cfg retryable f).invocations = 1 ∧
    (retry_with_backoff cfg retryable f).sleeps = [] := by
  unfold retry_with_backoff
  rw [retryGo]
  simp [h0, hnr]

/-- Witness for C5 at `max_retries = 3`: one invocation, no sleep, the
error surfaces. -/
theorem nonretryable_once_c5_w :
    ((fun _ => (Outcome.exn 7 : Outcome Nat Unit)) 0 = .exn 7) ∧
    ((fun _ : Nat => false) 7 = false) ∧
    (retry_with_backoff ⟨3, 1, 10, 2⟩ (fun _ => false)
        (fun _ => (Outcome.exn 7 : Outcome Nat Unit))).result = .error 7 ∧
    (retry_with_backoff ⟨3, 1, 10, 2⟩ (fun _ => false)
        (fun _ => (Outcome.exn 7 : Outcome Nat Unit))).invocations = 1 ∧
    (retry_with_backoff ⟨3, 1, 10, 2⟩ (fun _ => false)
        (fun _ => (Outcome.exn 7 : Outcome Nat Unit))).sleeps = [] := by
  have h := nonretryable_once_c5 ⟨3, 1, 10, 2⟩ (fun _ => false)
    (fun _ => (Outcome.exn 7 : Outcome Nat Unit)) 7 rfl rfl
  exact ⟨rfl, rfl, h.1, h.2.1, h.2.2⟩

/-- Claim C9 (the code contradicts the claim): with `max_retries = 1` and
a stage function that always raises a retryable error, the wrapper
performs exactly one backoff sleep — and it is the *blocking* kind: the
source's `async def wrapper` calls `time.sleep(delay)`, which blocks the
scheduling thread for the whole delay instead of suspending only the
current task (`await asyncio.sleep(delay)`). -/
theorem retry_sleep_blocking_c9 :
    (retry_with_backoff ⟨1, 1, 10, 2⟩ (fun _ : Unit => true)
        (fun _ => (Outcome.exn () : Outcome Unit Unit))).sleeps =
      [((1 : ℚ), SleepKind.blocking)] ∧
    SleepKind.blocking ≠ SleepKind.taskSuspending := by
  exact ⟨rfl, by decide⟩

/-- Claim C4, counterexample: the repository's pipeline endpoint applies
neither the `rate_limit` nor the `cached` decorator: serving the same
text request twice (identical inputs, all stages succeeding) produces a
trace with *two* invocations of the summarize stage function — refuting
"invokes f at most once across the two calls" — and containing no
admission check and no cache lookup at all, refuting the claimed
(1) admission, (2) cache lookup, (3) retry, (4) cache write order. -/
theorem resilient_order_c4_cex :
    ¬ (countInvokes "_generate_summary"
        ((process_workflow (fun _ => .ok "x") (.ok "s") (.ok "t") (.ok "q")
            ⟨none, some "hello"⟩).2 ++
          (process_workflow (fun _ => .ok "x") (.ok "s") (.ok "t") (.ok "q")
            ⟨none, some "hello"⟩).2) ≤ 1) ∧
    ((process_workflow (fun _ => .ok "x") (.ok "s") (.ok "t") (.ok "q")
        ⟨none, some "hello"⟩).2 ++
      (process_workflow (fun _ => .ok "x") (.ok "s") (.ok "t") (.ok "q")
        ⟨none, some "hello"⟩).2).count Ev.rateCheck = 0 ∧
    ((process_workflow (fun _ => .ok "x") (.ok "s") (.ok "t") (.ok "q")
        ⟨none, some "hello"⟩).2 ++
      (process_workflow (fun _ => .ok "x") (.ok "s") (.ok "t") (.ok "q")
        ⟨none, some "hello"⟩).2).count Ev.cacheLookup = 0 := by
  refine ⟨by decide, by decide, by decide⟩

/-- Claim C4, amended: the cache half of the order and the idempotence
hold of the `cached` decorator taken in isolation, not of any call path
of the repository: the `cached` wrapper performs, in this order, a cache
lookup, then — only on a miss — the invocation of the wrapped function,
then the cache write; a second identical call within the TTL is a cache
hit, returns the first call's result, and across the two calls the
wrapped function is invoked exactly once.  No code in the repository
composes admission, cache and retry around one stage function: the
endpoint applies neither decorator (as the counterexample shows), and the
`rate_limit` decorator's admission check always raises `TypeError` (the
`Pipeline`-object count comparison), so that wrapper stops at the
admission check and never invokes the wrapped function at all. -/
theorem resilient_order_c4 (funcName key : String) (ttl : Nat)
    (fresh fresh2 : String) (now now2 : ℤ) (st : KVStore)
    (cfg : RLConfig) (rlNow : ℤ) (rs : ZSet)
    (hmiss : redisGet key now st = none)
    (hne : fresh ≠ "")
    (hwithin : now2 < now + (ttl : ℤ)) :
    (cachedWrapper funcName key ttl fresh now st).2.2 =
        [.cacheLookup, .invoke funcName, .cacheWrite] ∧
    (cachedWrapper funcName key ttl fresh2 now2
        (cachedWrapper funcName key ttl fresh now st).2.1).1 = fresh ∧
    (cachedWrapper funcName key ttl fresh2 now2
        (cachedWrapper funcName key ttl fresh now st).2.1).2.2 =
      [.cacheLookup] ∧
    countInvokes funcName
        ((cachedWrapper funcName key ttl fresh now st).2.2 ++
          (cachedWrapper funcName key ttl fresh2 now2
            (cachedWrapper funcName key ttl fresh now st).2.1).2.2) = 1 ∧
    (rateLimitWrapper cfg funcName rlNow rs).2.2 = [.rateCheck] ∧
    (rateLimitWrapper cfg funcName rlNow rs).1 = .typeError := by
  have h1 : cachedWrapper funcName key ttl fresh now st =
      (fresh, redisSetEx key fresh (now + (ttl : ℤ)) st,
        [.cacheLookup, .invoke funcName, .cacheWrite]) := by
    unfold cachedWrapper
    rw [hmiss]
  have h2 : redisGet key now2 (redisSetEx key fresh (now + (ttl : ℤ)) st) =
      some fresh := by
    unfold redisSetEx redisGet
    rw [if_pos rfl, if_pos hwithin]
  have h3 : cachedWrapper funcName key ttl fresh2 now2
      (redisSetEx key fresh (now + (ttl : ℤ)) st) =
      (fresh, redisSetEx key fresh (now + (ttl : ℤ)) st, [.cacheLookup]) := by
    unfold cachedWrapper
    rw [h2]
    simp [hne]
  refine ⟨by rw [h1], ?_, ?_, ?_, rfl, rfl⟩
  · rw [h1]
    simp only []
    rw [h3]
  · rw [h1]
    simp only []
    rw [h3]
  · rw [h1]
    simp only []
    rw [h3]
    simp [countInvokes, isInvoke]

/-- Witness for the amended C4: key `"k"`, TTL 10, first call at instant
0 on an empty store, second call at instant 5. -/
theorem resilient_order_c4_w :
    redisGet "k" 0 [] = none ∧
    (cachedWrapper "f" "k" 10 "r1" 0 []).2.2 =
        [.cacheLookup, .invoke "f", .cacheWrite] ∧
    (cachedWrapper "f" "k" 10 "r2" 5 (cachedWrapper "f" "k" 10 "r1" 0 []).2.1).1 =
      "r1" ∧
    countInvokes "f"
        ((cachedWrapper "f" "k" 10 "r1" 0 []).2.2 ++
          (cachedWrapper "f" "k" 10 "r2" 5
            (cachedWrapper "f" "k" 10 "r1" 0 []).2.1).2.2) = 1 ∧
    (rateLimitWrapper ⟨1, 60⟩ "f" 0 []).2.2 = [.rateCheck] := by
  have h := resilient_order_c4 "f" "k" 10 "r1" "r2" 0 5 [] ⟨1, 60⟩ 0 []
    (by decide) (by decide) (by decide)
  exact ⟨by decide, h.1, h.2.1, h.2.2.2.1, h.2.2.2.2.1⟩

/-- Claim C8: if any one of the three analysis stages (Summarize, Explain,
Assess) fails, the whole request fails: the endpoint's response is a
single structured error, HTTP 500 with the `ArticleAnalysisError` detail.
The response is the `.error` branch of an `Except`, which carries no
stage output: the results produced by the other stages are discarded and
never returned. -/
theorem fail_fast_c8 (fetch : String → Except String String)
    (s t q : Except String String) (req : ArticleRequest)
    (hurl : truthy req.url = false) (htext : ¬ req.text.getD "" = "")
    (h : (∃ e, s = .error e) ∨ (∃ e, t = .error e) ∨ (∃ e, q = .error e)) :
    ∃ msg, (process_workflow fetch s t q req).1 = .error (500, msg) := by
  have hpa : ∃ msg, (process_article_text s t q).1 = .error msg := by
    rcases h with ⟨e, he⟩ | ⟨e, he⟩ | ⟨e, he⟩ <;> subst he
    · cases t <;> cases q <;> exact ⟨_, rfl⟩
    · cases s <;> cases q <;> exact ⟨_, rfl⟩
    · cases s <;> cases t <;> exact ⟨_, rfl⟩
  obtain ⟨msg, hm⟩ := hpa
  refine ⟨msg, ?_⟩
  unfold process_workflow
  rw [if_neg (by simp [hurl]), if_neg htext]
  rcases hpe : process_article_text s t q with ⟨r, evs⟩
  rw [hpe] at hm
  simp only [] at hm
  cases r with
  | ok a => cases hm
  | error e =>
    cases hm
    rfl

/-- Witness for C8: the summarize stage fails with `"boom"` on a text
request; the explain and assess results are discarded. -/
theorem fail_fast_c8_w :
    truthy (some "https://x" : Option String) = true ∧
    (∃ msg,
      (process_workflow (fun _ => .ok "x") (.error "boom") (.ok "terms")
          (.ok "quality") ⟨none, some "hi"⟩).1 = .error (500, msg)) :=
  ⟨by decide,
    fail_fast_c8 (fun _ => .ok "x") (.error "boom") (.ok "terms")
      (.ok "quality") ⟨none, some "hi"⟩ (by decide) (by decide)
      (Or.inl ⟨"boom", rfl⟩)⟩

/-- Claim C10: the `check_url_or_text` model validator runs while parsing
the inbound request, before any processing: a request providing (truthily)
neither `url` nor `text` is rejected, a request providing both is
rejected, and every accepted request provides exactly one of the two. -/
theorem validation_xor_c10 (maxLen : Nat) (url text : Option String) :
    ((truthy url || truthy text) = false →
      (check_url_or_text maxLen url text).isOk = false) ∧
    ((truthy url && truthy text) = true →
      (check_url_or_text maxLen url text).isOk = false) ∧
    ((check_url_or_text maxLen url text).isOk = true →
      truthy url ≠ truthy text) := by
  cases h1 : truthy url <;> cases h2 : truthy text <;>
    simp [check_url_or_text, h1, h2, Except.isOk, Except.toBool]

/-- Witness for C10: the empty request and the both-fields request are
rejected; the text-only request is accepted with exactly one field. -/
theorem validation_xor_c10_w :
    (check_url_or_text 100 none none).isOk = false ∧
    (check_url_or_text 100 (some "https://x") (some "body")).isOk = false ∧
    (truthy (some "body" : Option String) ≠ truthy (none : Option String)) :=
  ⟨(validation_xor_c10 100 none none).1 (by decide),
    (validation_xor_c10 100 (some "https://x") (some "body")).2.1 (by decide),
    by decide⟩

end HealthArticle
